import Mathlib

/-!
Verification of the conversational logistics-bot core (single source file
`main.py`): localization tables, chat-reference resolution, writability
checks, publication/broadcast dispatch, Pro-subscription arithmetic, and the
per-user session state machine with its menu-interrupt semantics.

Python `dict` literals/updates are embedded as ordered association lists in
which a later binding for the same key overrides an earlier one (`dictGet`
scans the whole list keeping the last match, exactly the final state of the
built dict).  Python `str.strip` is embedded as `pyStrip`.  Machine-level
collaborators (the Telegram transport, MongoDB, float parsing) appear as
explicit functional parameters where the code calls out to them.
-/

/-- Python `str.strip()` whitespace predicate (ASCII whitespace). -/
def isPyWs (c : Char) : Bool :=
  c == ' ' || c == '\t' || c == '\n' || c == '\r' || c == '\x0b' || c == '\x0c'

/-- Python `str.strip()`: drop leading and trailing whitespace. -/
def pyStrip (s : String) : String :=
  String.mk (((s.toList.dropWhile isPyWs).reverse.dropWhile isPyWs).reverse)

/-- `d.get(key)` on a Python dict built by the listed insertions in order:
the last binding of a key wins. -/
def dictGet (m : List (String × String)) (key : String) : Option String :=
  m.foldl (fun acc p => if p.fst == key then some p.snd else acc) none

/-- `d.get(key, default)`. -/
def dictGetD (m : List (String × String)) (key dflt : String) : String :=
  (dictGet m key).getD dflt

-- Language codes and fixed canonical button texts, verbatim from `main.py`.

def LANG_UZ : String := "uz"
def LANG_RU : String := "ru"
def LANG_SELECT_UZ : String := "🇺🇿 O\x27zbekcha"
def LANG_SELECT_RU : String := "🇷🇺 Русский"

def ROLE_DRIVER : String := "driver"
def ROLE_SHIPPER : String := "shipper"

def ROLE_LABEL_DRIVER : String := "🚛 Haydovchi"
def ROLE_LABEL_SHIPPER : String := "📦 Yuk beruvchi"
def ROLE_LABEL_DRIVER_RU : String := "🚛 Водитель"
def ROLE_LABEL_SHIPPER_RU : String := "📦 Грузоотправитель"

def PAYMENT_OPTIONS : List String := ["💵 Naqd", "💳 Karta", "🏦 O\x27tkazma"]
def PAYMENT_OPTIONS_RU : List String := ["💵 Наличные", "💳 Карта", "🏦 Перевод"]

def BTN_CANCEL : String := "❌ Bekor qilish"
def BTN_BACK_MAIN : String := "⬅️ Asosiy menyu"
def BTN_BACK_ADMIN : String := "🔙 Admin panel"
def BTN_SKIP : String := "⏭ O\x27tkazib yuborish"

def BTN_ADMIN_PANEL : String := "🛠 Admin panel"
def BTN_BROADCAST : String := "📣 Habar yuborish"
def BTN_ADMIN_STATS : String := "📊 Tizim statistikasi"
def BTN_ADMIN_USERS : String := "📋 Foydalanuvchilar"
def BTN_ADMIN_PRO : String := "💎 Pro boshqaruvi"
def BTN_ADMIN_CHANNELS : String := "🌐 Kanal/Guruh sozlash"
def BTN_ADMIN_GUIDE : String := "📘 Admin yo\x27riqnoma"
def BTN_PRO_ADD : String := "➕ Pro qo\x27shish"
def BTN_PRO_REMOVE : String := "➖ Pro o\x27chirish"
def BTN_CH_SET_CATALOG : String := "📚 Katalog chat ID"
def BTN_CH_SET_REGION : String := "🗺 Viloyat chat ID"
def BTN_CH_LIST : String := "📋 Ulangan chatlar"
def BTN_REQ_ADD : String := "➕ Majburiy kanal qo\x27shish"
def BTN_REQ_REMOVE : String := "➖ Majburiy kanal o\x27chirish"
def BTN_REQ_LIST : String := "📌 Majburiy kanallar"

def BTN_BC_ALL : String := "👥 Barchaga"
def BTN_BC_DRIVERS : String := "🚛 Haydovchilarga"
def BTN_BC_SHIPPERS : String := "📦 Yuk beruvchilarga"
def BTN_BC_PRO : String := "💎 Pro foydalanuvchilarga"

def BTN_MENU_CARGO : String := "📦 Yuk joylash"
def BTN_MENU_DRIVER : String := "🚛 Haydovchi anketasi"
def BTN_MENU_PROFILE : String := "👤 Profilim"
def BTN_MENU_ANALYSIS : String := "🧠 Profil tahlili"
def BTN_MENU_STATS : String := "📊 Statistika"
def BTN_MENU_PRO : String := "💎 Pro tarif"
def BTN_MENU_NEWS : String := "📣 Yangiliklar"
def BTN_MENU_CONTACT : String := "☎️ Bog\x27lanish"
def BTN_MENU_SETTINGS : String := "⚙️ Sozlamalar"
def BTN_SETTINGS_ROLE : String := "🔄 Rolni almashtirish"
def BTN_SETTINGS_LANG : String := "🌐 Tilni almashtirish"

def BTN_CARGO_CONFIRM : String := "✅ Guruhlarga yuborish"
def BTN_CARGO_EDIT : String := "✏️ Tahrirlash"

/-- `MENU_INTERRUPT_BUTTONS`, in source order. -/
def MENU_INTERRUPT_BUTTONS : List String :=
  [BTN_CANCEL, BTN_BACK_MAIN, BTN_BACK_ADMIN, BTN_MENU_CARGO, BTN_MENU_DRIVER,
   BTN_MENU_PROFILE, BTN_MENU_ANALYSIS, BTN_MENU_STATS, BTN_MENU_PRO,
   BTN_MENU_NEWS, BTN_MENU_CONTACT, BTN_MENU_SETTINGS, BTN_SETTINGS_ROLE,
   BTN_SETTINGS_LANG, BTN_ADMIN_PANEL, BTN_ADMIN_STATS, BTN_ADMIN_USERS,
   BTN_BROADCAST, BTN_ADMIN_PRO, BTN_PRO_ADD, BTN_PRO_REMOVE,
   BTN_ADMIN_CHANNELS, BTN_CH_SET_CATALOG, BTN_CH_SET_REGION, BTN_CH_LIST,
   BTN_REQ_ADD, BTN_REQ_REMOVE, BTN_REQ_LIST, BTN_ADMIN_GUIDE]

/-- `RU_BUTTON_TEXTS` (canonical → Russian), in dict insertion order. -/
def RU_BUTTON_TEXTS : List (String × String) :=
  [(BTN_CANCEL, "❌ Отмена"),
   (BTN_BACK_MAIN, "⬅️ Главное меню"),
   (BTN_BACK_ADMIN, "🔙 Админ панель"),
   (BTN_SKIP, "⏭ Пропустить"),
   (BTN_ADMIN_PANEL, "🛠 Админ панель"),
   (BTN_BROADCAST, "📣 Рассылка"),
   (BTN_ADMIN_STATS, "📊 Системная статистика"),
   (BTN_ADMIN_USERS, "📋 Пользователи"),
   (BTN_ADMIN_PRO, "💎 Управление Pro"),
   (BTN_ADMIN_CHANNELS, "🌐 Настройка каналов/групп"),
   (BTN_ADMIN_GUIDE, "📘 Инструкция админа"),
   (BTN_PRO_ADD, "➕ Добавить Pro"),
   (BTN_PRO_REMOVE, "➖ Удалить Pro"),
   (BTN_CH_SET_CATALOG, "📚 ID каталога"),
   (BTN_CH_SET_REGION, "🗺 ID по области"),
   (BTN_CH_LIST, "📋 Подключенные чаты"),
   (BTN_REQ_ADD, "➕ Добавить обязательный канал"),
   (BTN_REQ_REMOVE, "➖ Удалить обязательный канал"),
   (BTN_REQ_LIST, "📌 Обязательные каналы"),
   (BTN_BC_ALL, "👥 Всем"),
   (BTN_BC_DRIVERS, "🚛 Водителям"),
   (BTN_BC_SHIPPERS, "📦 Грузоотправителям"),
   (BTN_BC_PRO, "💎 Pro пользователям"),
   (BTN_MENU_CARGO, "📦 Разместить груз"),
   (BTN_MENU_DRIVER, "🚛 Анкета водителя"),
   (BTN_MENU_PROFILE, "👤 Мой профиль"),
   (BTN_MENU_ANALYSIS, "🧠 Анализ профиля"),
   (BTN_MENU_STATS, "📊 Статистика"),
   (BTN_MENU_PRO, "💎 Pro тариф"),
   (BTN_MENU_NEWS, "📣 Новости"),
   (BTN_MENU_CONTACT, "☎️ Связь"),
   (BTN_MENU_SETTINGS, "⚙️ Настройки"),
   (BTN_SETTINGS_ROLE, "🔄 Сменить роль"),
   (BTN_SETTINGS_LANG, "🌐 Сменить язык"),
   (BTN_CARGO_CONFIRM, "✅ Отправить в группы"),
   (BTN_CARGO_EDIT, "✏️ Изменить"),
   ("📲 Raqam yuborish", "📲 Отправить номер"),
   (ROLE_LABEL_DRIVER, ROLE_LABEL_DRIVER_RU),
   (ROLE_LABEL_SHIPPER, ROLE_LABEL_SHIPPER_RU),
   ("💵 Naqd", "💵 Наличные"),
   ("💳 Karta", "💳 Карта"),
   ("🏦 O\x27tkazma", "🏦 Перевод")]

/-- `TEXT_CANON_MAP`: the inverted `RU_BUTTON_TEXTS` dict followed by the
explicit `.update(...)` entries, in insertion order (later bindings win). -/
def TEXT_CANON_MAP : List (String × String) :=
  RU_BUTTON_TEXTS.map (fun p => (p.snd, p.fst)) ++
  [(LANG_SELECT_UZ, LANG_SELECT_UZ),
   (LANG_SELECT_RU, LANG_SELECT_RU),
   (ROLE_LABEL_DRIVER, ROLE_LABEL_DRIVER),
   (ROLE_LABEL_SHIPPER, ROLE_LABEL_SHIPPER),
   (ROLE_LABEL_DRIVER_RU, ROLE_LABEL_DRIVER),
   (ROLE_LABEL_SHIPPER_RU, ROLE_LABEL_SHIPPER),
   ("💵 Naqd", "💵 Naqd"),
   ("💳 Karta", "💳 Karta"),
   ("🏦 O\x27tkazma", "🏦 O\x27tkazma"),
   ("💵 Наличные", "💵 Naqd"),
   ("💳 Карта", "💳 Karta"),
   ("🏦 Перевод", "🏦 O\x27tkazma")]

/-- `canonicalize_user_text`: strip, then map through `TEXT_CANON_MAP`
with the raw text as default (a `None` argument becomes `""` upstream). -/
def canonicalize_user_text (text : String) : String :=
  let raw := pyStrip text
  dictGetD TEXT_CANON_MAP raw raw

/-- `localize_button_text`: identity unless the language is Russian, in
which case the button is looked up in `RU_BUTTON_TEXTS` (default: itself). -/
def localize_button_text (text lang : String) : String :=
  if lang != LANG_RU then text
  else dictGetD RU_BUTTON_TEXTS text text

/-- The fixed canonical button set: the keys of `RU_BUTTON_TEXTS`. -/
def canonicalButtonSet : List String := RU_BUTTON_TEXTS.map Prod.fst

set_option maxRecDepth 4096 in
/-- C4: for every button label X in the fixed canonical button set,
`canonicalize_user_text (localize_button_text X ru) = X` — the
canonical-to-Russian button table composed with the Russian-to-canonical
table is the identity on the button set. -/
theorem c4_button_localization_round_trip :
    ∀ x ∈ canonicalButtonSet,
      canonicalize_user_text (localize_button_text x LANG_RU) = x := by
  decide

set_option maxRecDepth 4096 in
/-- Witness for C4 at the concrete button `BTN_CANCEL`. -/
theorem c4_button_localization_round_trip_witness :
    canonicalize_user_text (localize_button_text BTN_CANCEL LANG_RU) =
      BTN_CANCEL :=
  c4_button_localization_round_trip BTN_CANCEL (by decide)

/-! ## Chat Reference Resolver (`parse_chat_reference`, `resolve_chat_id_from_text`) -/

/-- `[A-Za-z0-9_]` (the regex word character class, ASCII). -/
def isWordChar (c : Char) : Bool := c.isAlphanum || c == '_'

/-- Decimal value of an ASCII digit list. -/
def digitsToNat (l : List Char) : Nat :=
  l.foldl (fun acc c => acc * 10 + (c.toNat - '0'.toNat)) 0

/-- Python `int(...)` on the strings fed to `parse_chat_id`: an optional
sign followed by one or more ASCII decimal digits. -/
def parseIntText (l : List Char) : Option Int :=
  match l with
  | '-' :: rest =>
      if rest ≠ [] && rest.all Char.isDigit then some (-(digitsToNat rest : Int)) else none
  | '+' :: rest =>
      if rest ≠ [] && rest.all Char.isDigit then some (digitsToNat rest : Int) else none
  | rest =>
      if rest ≠ [] && rest.all Char.isDigit then some (digitsToNat rest : Int) else none

/-- `parse_chat_id`: strip, parse as an integer, reject 0. -/
def parse_chat_id (value : String) : Option Int :=
  match parseIntText (pyStrip value).toList with
  | none => none
  | some chatId => if chatId == 0 then none else some chatId

/-- Strip an exact literal from the front of a character list. -/
def dropLit : List Char → List Char → Option (List Char)
  | [], l => some l
  | _ :: _, [] => none
  | p :: ps, c :: cs => if p == c then dropLit ps cs else none

/-- The optional `(?:https?://)?` scheme of the link regexes. -/
def dropScheme (l : List Char) : List Char :=
  match dropLit "https://".toList l with
  | some r => r
  | none =>
    match dropLit "http://".toList l with
    | some r => r
    | none => l

/-- The mandatory `(?:t\.me|telegram\.me)/` host of the link regexes. -/
def dropHost (l : List Char) : Option (List Char) :=
  match dropLit "t.me/".toList l with
  | some r => some r
  | none => dropLit "telegram.me/".toList l

/-- The common `(?:/\d+)?/?(?:\?.*)?$` tail of the internal/public link
regexes, checked after the captured group. -/
def linkTail : List Char → Bool
  | [] => true
  | '?' :: _ => true
  | '/' :: rest =>
    match rest with
    | [] => true
    | '?' :: _ => true
    | _ =>
      let ds := rest.takeWhile Char.isDigit
      let r2 := rest.drop ds.length
      if ds.isEmpty then false
      else
        match r2 with
        | [] => true
        | '?' :: _ => true
        | '/' :: r3 =>
          match r3 with
          | [] => true
          | '?' :: _ => true
          | _ => false
        | _ => false
  | _ => false

/-- `CHAT_USERNAME_RE = ^@[A-Za-z0-9_]{5,}$`. -/
def chatUsernameMatch (s : String) : Bool :=
  match s.toList with
  | '@' :: rest => decide (rest.length ≥ 5) && rest.all isWordChar
  | _ => false

/-- `CHAT_INTERNAL_LINK_RE`: scheme, host, `c/`, captured digits, link tail.
Returns the captured digit group. -/
def chatInternalLinkMatch (s : String) : Option (List Char) :=
  match dropHost (dropScheme s.toList) with
  | none => none
  | some afterHost =>
    match dropLit "c/".toList afterHost with
    | none => none
    | some afterC =>
      let ds := afterC.takeWhile Char.isDigit
      let rest := afterC.drop ds.length
      if ds.isEmpty then none
      else if linkTail rest then some ds else none

/-- The `([A-Za-z0-9_]{5,})(?:/\d+)?/?(?:\?.*)?$` part of the public-link
regex; returns the captured handle. -/
def publicHandlePart (l : List Char) : Option (List Char) :=
  let hs := l.takeWhile isWordChar
  let rest := l.drop hs.length
  if decide (hs.length ≥ 5) && linkTail rest then some hs else none

/-- `CHAT_PUBLIC_LINK_RE`: scheme, host, optional `s/`, captured handle,
link tail.  The optional `s/` is tried first and backtracked, as the
regex engine does. -/
def chatPublicLinkMatch (s : String) : Option (List Char) :=
  match dropHost (dropScheme s.toList) with
  | none => none
  | some afterHost =>
    match dropLit "s/".toList afterHost with
    | some afterS =>
      match publicHandlePart afterS with
      | some h => some h
      | none => publicHandlePart afterHost
    | none => publicHandlePart afterHost

/-- `CHAT_INVITE_LINK_RE`: scheme, host, `joinchat/` or `+`, one or more of
`[A-Za-z0-9_-]`, optional trailing `/`. -/
def chatInviteLinkMatch (s : String) : Bool :=
  match dropHost (dropScheme s.toList) with
  | none => false
  | some afterHost =>
    let afterKey :=
      match dropLit "joinchat/".toList afterHost with
      | some r => some r
      | none => dropLit "+".toList afterHost
    match afterKey with
    | none => false
    | some body =>
      let cs := body.takeWhile (fun c => isWordChar c || c == '-')
      let rest := body.drop cs.length
      !cs.isEmpty && (rest.isEmpty || rest == ['/'])

/-- The three result slots of `parse_chat_reference`. -/
structure ChatRefParse where
  chatId : Option Int
  username : Option String
  error : Option String
deriving Repr, DecidableEq

def emptyChatRefError : String := "Chat ma\x27lumoti kiritilmadi."

def inviteLinkError : String :=
  "❗ `+` yoki `joinchat` invite-link orqali chat ID avtomatik olinmaydi.\n" ++
  "Botni o\x27sha chatga qo\x27shing va:\n" ++
  "• chatdan forward xabar yuboring yoki\n" ++
  "• `@username` / `-100...` yuboring."

def chatFormatError : String :=
  "Chat formati noto\x27g\x27ri.\n" ++
  "Qabul qilinadi: `-100...`, `@username`, `https://t.me/username`, " ++
  "`https://t.me/username/123`, `https://t.me/c/...`"

/-- `parse_chat_reference`: literal integer, `@username`, internal `/c/`
link, public link, invite link, unrecognized — in source order. -/
def parse_chat_reference (value : String) : ChatRefParse :=
  let raw := pyStrip value
  if raw == "" then ⟨none, none, some emptyChatRefError⟩
  else
    match parse_chat_id raw with
    | some numericId => ⟨some numericId, none, none⟩
    | none =>
      if chatUsernameMatch raw then ⟨none, some raw, none⟩
      else
        match chatInternalLinkMatch raw with
        | some internalId =>
            ⟨some (-(digitsToNat ('1' :: '0' :: '0' :: internalId) : Int)), none, none⟩
        | none =>
          match chatPublicLinkMatch raw with
          | some handle => ⟨none, some (String.mk ('@' :: handle)), none⟩
          | none =>
            if chatInviteLinkMatch raw then ⟨none, none, some inviteLinkError⟩
            else ⟨none, none, some chatFormatError⟩

def chatLookupFailError (username : String) : String :=
  "`" ++ username ++ "` chatiga ulanib bo\x27lmadi.\n" ++
  "Bot shu chatga qo\x27shilganini va username to\x27g\x27ri ekanini tekshiring."

/-- Outcome of `resolve_chat_id_from_text`: the `(chat_id | None,
error | None)` pair plus the list of transport lookups performed
(`bot.get_chat` arguments, in order). -/
structure ResolveOutcome where
  chatId : Option Int
  error : Option String
  lookups : List String
deriving Repr, DecidableEq

/-- `resolve_chat_id_from_text`, with the transport's `get_chat` as the
functional parameter `getChat` (`none` models the raised exception). -/
def resolve_chat_id_from_text (getChat : String → Option Int)
    (value : String) : ResolveOutcome :=
  let p := parse_chat_reference value
  match p.error with
  | some parseError => ⟨none, some parseError, []⟩
  | none =>
    match p.chatId with
    | some numericId => ⟨some numericId, none, []⟩
    | none =>
      match p.username with
      | none => ⟨none, some "Chat topilmadi.", []⟩
      | some username =>
        match getChat username with
        | some chatId => ⟨some chatId, none, [username]⟩
        | none => ⟨none, some (chatLookupFailError username), [username]⟩

/-- C3: the literal grammar cases of the chat-reference resolver:
`"-1001234567890"` resolves directly with no lookup; `"@abcde"` performs
exactly one lookup and returns the looked-up handle; the internal link
`"https://t.me/c/123456789"` resolves to `-100123456789` with no lookup;
the invite link `"https://t.me/+AbCdEf"` fails with the invite-link
guidance error and no lookup. -/
theorem c3_chat_reference_literal_grammar (getChat : String → Option Int)
    (handle : Int) (hlook : getChat "@abcde" = some handle) :
    resolve_chat_id_from_text getChat "-1001234567890" =
      ⟨some (-1001234567890), none, []⟩ ∧
    resolve_chat_id_from_text getChat "@abcde" =
      ⟨some handle, none, ["@abcde"]⟩ ∧
    resolve_chat_id_from_text getChat "https://t.me/c/123456789" =
      ⟨some (-100123456789), none, []⟩ ∧
    resolve_chat_id_from_text getChat "https://t.me/+AbCdEf" =
      ⟨none, some inviteLinkError, []⟩ := by
  refine ⟨rfl, ?_, rfl, rfl⟩
  have hstep : resolve_chat_id_from_text getChat "@abcde" =
      (match getChat "@abcde" with
       | some chatId => (⟨some chatId, none, ["@abcde"]⟩ : ResolveOutcome)
       | none => ⟨none, some (chatLookupFailError "@abcde"), ["@abcde"]⟩) := rfl
  rw [hstep, hlook]

/-- Witness for C3 with a concrete transport mapping `@abcde` to `777`. -/
theorem c3_chat_reference_literal_grammar_witness :
    resolve_chat_id_from_text
        (fun u => if u == "@abcde" then some 777 else none) "@abcde" =
      ⟨some 777, none, ["@abcde"]⟩ :=
  (c3_chat_reference_literal_grammar
    (fun u => if u == "@abcde" then some 777 else none) 777 rfl).2.1

/-! ## `check_chat_writable` (decision table on fetched chat metadata) -/

def msgBotNotInChat : String := "Bot chatda yo\x27q. Botni chatga qo\x27shing."
def msgMustBeAdmin : String := "Bu kanal uchun bot admin bo\x27lishi shart."
def msgPostingDisabled : String :=
  "Bot admin, lekin `Post messages` huquqi o\x27chirilgan."
def msgChannelOk : String := "Kanalga yuborish huquqi bor."
def msgGroupRestricted : String := "Bot bu guruhda yozishga cheklangan."
def msgGroupOk : String := "Chatga yuborish huquqi bor."

/-- `check_chat_writable` after the three transport fetches succeed:
decision on the chat type, the bot's membership status, and the
`can_post_messages` / `can_send_messages` capabilities (`none` models a
missing/None attribute; `is False` in Python is `== some false`). -/
def check_chat_writable (chatType status : String)
    (canPost canSend : Option Bool) : Bool × String :=
  if status == "left" || status == "kicked" then (false, msgBotNotInChat)
  else if chatType == "channel" then
    if !(status == "administrator" || status == "creator") then
      (false, msgMustBeAdmin)
    else if canPost == some false then (false, msgPostingDisabled)
    else (true, msgChannelOk)
  else
    if canSend == some false then (false, msgGroupRestricted)
    else (true, msgGroupOk)

/-- C5: `check_chat_writable` implements the spec's ordered decision table:
left/kicked membership fails with the "bot not in chat" message for any chat
kind; a broadcast channel requires administrator/creator status and a
not-explicitly-disabled posting capability; a group-like chat fails exactly
when sending is explicitly disabled. -/
theorem c5_check_chat_writable_table (chatType status : String)
    (canPost canSend : Option Bool) :
    ((status = "left" ∨ status = "kicked") →
      check_chat_writable chatType status canPost canSend =
        (false, msgBotNotInChat)) ∧
    (status ≠ "left" → status ≠ "kicked" → chatType = "channel" →
      ((status ≠ "administrator" → status ≠ "creator" →
         check_chat_writable chatType status canPost canSend =
           (false, msgMustBeAdmin)) ∧
       ((status = "administrator" ∨ status = "creator") → canPost = some false →
         check_chat_writable chatType status canPost canSend =
           (false, msgPostingDisabled)) ∧
       ((status = "administrator" ∨ status = "creator") → canPost ≠ some false →
         check_chat_writable chatType status canPost canSend =
           (true, msgChannelOk)))) ∧
    (status ≠ "left" → status ≠ "kicked" → chatType ≠ "channel" →
      ((canSend = some false →
         check_chat_writable chatType status canPost canSend =
           (false, msgGroupRestricted)) ∧
       (canSend ≠ some false →
         check_chat_writable chatType status canPost canSend =
           (true, msgGroupOk)))) := by
  unfold check_chat_writable
  refine ⟨?_, ?_, ?_⟩
  · rintro (rfl | rfl) <;> simp
  · rintro h1 h2 rfl
    refine ⟨?_, ?_, ?_⟩
    · intro h3 h4
      simp [h1, h2, h3, h4]
    · rintro (rfl | rfl) hpost <;> simp [hpost]
    · rintro (rfl | rfl) hpost <;> simp [hpost]
  · intro h1 h2 h3
    constructor
    · intro hsend
      simp [h1, h2, h3, hsend]
    · intro hsend
      simp [h1, h2, h3, hsend]

/-- Witness for C5: a channel where the bot is administrator with posting
explicitly disabled is rejected with the "posting disabled" message. -/
theorem c5_check_chat_writable_table_witness :
    check_chat_writable "channel" "administrator" (some false) none =
      (false, msgPostingDisabled) :=
  ((c5_check_chat_writable_table "channel" "administrator"
      (some false) none).2.1 (by decide) (by decide) rfl).2.1
    (Or.inl rfl) rfl

/-! ## Users, `is_pro_active`, `apply_pro`

Wall-clock instants are embedded as integers (in days, the only unit
`timedelta` is invoked with); `now_utc()` is an explicit parameter. -/

/-- The `driver_profile` sub-document (all keys read via `.get`, so a
missing key and an explicit `None` both embed as `none`). -/
structure DriverProfile where
  car_type : Option String := none
  capacity_ton : Option Rat := none
  volume_m3 : Option Rat := none
  routes : Option String := none
  price_per_km : Option Rat := none
  note : Option String := none
deriving Repr, DecidableEq

/-- A `users` collection document. -/
structure UserRec where
  first_name : Option String := none
  last_name : Option String := none
  phone : Option String := none
  role : Option String := none
  profile_completed : Bool := false
  driver_profile : DriverProfile := {}
  pro_until : Option Int := none
  lang : Option String := none
deriving Repr, DecidableEq

/-- The `users` collection, keyed by Telegram id (`_id` is unique). -/
def UserStore := List (Int × UserRec)

/-- `fetch_user` / `users_col.find_one({"_id": uid})`. -/
def storeGet (store : UserStore) (uid : Int) : Option UserRec :=
  (store.find? (fun p => p.fst == uid)).map Prod.snd

/-- The `$set {pro_until: t}` update of `apply_pro`. -/
def storeSetProUntil (store : UserStore) (uid t : Int) : UserStore :=
  store.map (fun p =>
    if p.fst == uid then (p.fst, { p.snd with pro_until := some t }) else p)

/-- `is_pro_active`: a user with a `pro_until` strictly in the future. -/
def is_pro_active (user : Option UserRec) (now : Int) : Bool :=
  match user with
  | none => false
  | some u =>
    match u.pro_until with
    | none => false
    | some proUntil => decide (now < proUntil)

/-- `apply_pro`: missing user yields `None` and no write; otherwise the new
expiry is (current expiry if strictly in the future, else now) plus the
granted days, written back to the store. -/
def apply_pro (store : UserStore) (now uid days : Int) :
    Option Int × UserStore :=
  match storeGet store uid with
  | none => (none, store)
  | some user =>
    let base :=
      match user.pro_until with
      | some current => if now < current then current else now
      | none => now
    let newUntil := base + days
    (some newUntil, storeSetProUntil store uid newUntil)

lemma storeGet_setProUntil (store : UserStore) (uid t : Int) :
    storeGet (storeSetProUntil store uid t) uid =
      (storeGet store uid).map (fun u => { u with pro_until := some t }) := by
  induction store with
  | nil => rfl
  | cons p rest ih =>
    by_cases h : p.fst = uid
    · simp [storeGet, storeSetProUntil, List.find?, h]
    · have hb : (p.fst == uid) = false := by simp [h]
      simp only [storeGet, storeSetProUntil, List.map, List.find?, hb,
        if_false, Bool.false_eq_true] at ih ⊢
      exact ih

lemma storeSetProUntil_setProUntil (store : UserStore) (uid t1 t2 : Int) :
    storeSetProUntil (storeSetProUntil store uid t1) uid t2 =
      storeSetProUntil store uid t2 := by
  unfold storeSetProUntil
  rw [List.map_map]
  refine List.map_congr_left ?_
  intro q _
  by_cases h : q.fst = uid <;> simp [h]

/-- C10: granting Pro extends rather than overwrites.  The returned expiry
is (current expiry if strictly future, else now) plus the granted days; for
a user with an active subscription, two consecutive grants of `d1` and `d2`
days produce exactly the state and expiry of one `d1 + d2`-day grant; a
grant to a missing user returns `none` and leaves the store unchanged. -/
theorem c10_apply_pro_extends (store : UserStore) (now uid : Int)
    (user : UserRec) (t d1 d2 : Int)
    (hu : storeGet store uid = some user) (hp : user.pro_until = some t)
    (hact : now < t) (hd1 : 0 < d1) (_hd2 : 0 < d2) :
    (apply_pro store now uid d1).fst = some (t + d1) ∧
    apply_pro (apply_pro store now uid d1).snd now uid d2 =
      apply_pro store now uid (d1 + d2) ∧
    (∀ uid2, storeGet store uid2 = none →
      apply_pro store now uid2 d1 = (none, store)) := by
  have h1 : apply_pro store now uid d1 =
      (some (t + d1), storeSetProUntil store uid (t + d1)) := by
    simp [apply_pro, hu, hp, hact]
  refine ⟨by rw [h1], ?_, ?_⟩
  · have hget : storeGet (storeSetProUntil store uid (t + d1)) uid =
        some { user with pro_until := some (t + d1) } := by
      rw [storeGet_setProUntil, hu]; rfl
    have hact2 : now < t + d1 := by linarith
    rw [h1]
    simp only [apply_pro, hget, hu, hp]
    rw [if_pos hact2, if_pos hact]
    rw [storeSetProUntil_setProUntil]
    rw [add_assoc]
  · intro uid2 hnone
    simp [apply_pro, hnone]

/-- Witness for C10: a one-user store with an active subscription expiring
at time 10, now = 0, grants of 3 and 4 days. -/
theorem c10_apply_pro_extends_witness :
    (apply_pro [(5, { pro_until := some 10 : UserRec })] 0 5 3).fst =
      some 13 ∧
    apply_pro (apply_pro [(5, { pro_until := some 10 : UserRec })] 0 5 3).snd
        0 5 4 =
      apply_pro [(5, { pro_until := some 10 : UserRec })] 0 5 (3 + 4) ∧
    (∀ uid2, storeGet [(5, { pro_until := some 10 : UserRec })] uid2 = none →
      apply_pro [(5, { pro_until := some 10 : UserRec })] 0 uid2 3 =
        (none, [(5, { pro_until := some 10 : UserRec })])) :=
  c10_apply_pro_extends _ 0 5 _ 10 3 4 rfl rfl (by decide) (by decide)
    (by decide)

/-! ## Publication dispatcher (`resolve_target_chats`, `publish_cargo`) -/

/-- Python `needle in hay` substring containment on character lists. -/
def strContains (hay needle : List Char) : Bool :=
  match hay with
  | [] => needle.isEmpty
  | _ :: t => needle.isPrefixOf hay || strContains t needle

/-- `normalize_send_error`: map a transport exception string to a
human-readable reason by case-insensitive substring tests, else pass it
through. -/
def normalize_send_error (err : String) : String :=
  let lowered := err.toList.map (fun c =>
    if 'A' ≤ c && c ≤ 'Z' then Char.ofNat (c.toNat + 32) else c)
  if strContains lowered "forbidden".toList ||
     strContains lowered "not enough rights".toList then
    "Botda yozish huquqi yo\x27q (admin emas yoki post/send ruxsati yo\x27q)."
  else if strContains lowered "chat not found".toList then
    "Chat topilmadi (ID/link noto\x27g\x27ri yoki bot chatga qo\x27shilmagan)."
  else if strContains lowered "blocked".toList then
    "Bot bloklangan yoki chatdan chiqarilgan."
  else err

/-- Admin-configured destinations: the single catalog chat and the
per-region channel mapping (12 fixed keys, optional chat ids). -/
structure ChannelConfig where
  catalog_chat : Option Int := none
  region_channels : List (String × Option Int) := []
deriving Repr, DecidableEq

/-- `get_region_chat_id`: the region document's `chat_id` when it is an
integer, else `None`. -/
def get_region_chat_id (cfg : ChannelConfig) (region : String) : Option Int :=
  match cfg.region_channels.find? (fun p => p.fst == region) with
  | none => none
  | some doc => doc.snd

/-- `resolve_target_chats`: post only to the origin region's chat
(`Andijon -> Toshkent` goes only to the `Andijon` chat); an unmapped
origin yields no targets. -/
def resolve_target_chats (cfg : ChannelConfig)
    (from_region _to_region : String) : List Int :=
  match get_region_chat_id cfg from_region with
  | none => []
  | some fromChat => [fromChat]

/-- The send loop of `publish_cargo`: each target is attempted
independently; `sendMessage` returns `none` on success and the exception
text on failure.  Returns `(sent, failed)`. -/
def publish_cargo (cfg : ChannelConfig) (sendMessage : Int → Option String)
    (from_region to_region : String) : List Int × List String :=
  let targetChats := resolve_target_chats cfg from_region to_region
  targetChats.foldl
    (fun acc chatId =>
      match sendMessage chatId with
      | none => (acc.fst ++ [chatId], acc.snd)
      | some exc =>
          (acc.fst,
           acc.snd ++ [toString chatId ++ ": " ++ normalize_send_error exc]))
    ([], [])

/-- C2: `publish_cargo` attempts a send only to the origin region's mapped
destination: the result never depends on the destination region or on the
catalog destination, an unmapped origin yields zero attempts reported as
`(sent, failed) = ([], [])` (zero successes and no failure entries), and a
mapped origin yields exactly one attempted target — that mapping. -/
theorem c2_publish_origin_only (cfg : ChannelConfig)
    (sendMessage : Int → Option String) (from_region to_region : String) :
    (∀ to2, publish_cargo cfg sendMessage from_region to2 =
            publish_cargo cfg sendMessage from_region to_region) ∧
    (∀ catalog2,
      publish_cargo { cfg with catalog_chat := catalog2 } sendMessage
          from_region to_region =
        publish_cargo cfg sendMessage from_region to_region) ∧
    (get_region_chat_id cfg from_region = none →
      publish_cargo cfg sendMessage from_region to_region = ([], [])) ∧
    (∀ fromChat, get_region_chat_id cfg from_region = some fromChat →
      resolve_target_chats cfg from_region to_region = [fromChat]) := by
  refine ⟨fun to2 => rfl, fun catalog2 => rfl, ?_, ?_⟩
  · intro hnone
    simp [publish_cargo, resolve_target_chats, hnone]
  · intro fromChat hsome
    simp [resolve_target_chats, hsome]

/-- Witness for C2: a configuration with only `Andijon` mapped (to chat
`-100500`): publishing `Andijon -> Toshkent` attempts exactly the one
`Andijon` target, and an unmapped origin (`Toshkent`) yields `([], [])`. -/
theorem c2_publish_origin_only_witness :
    resolve_target_chats
        ⟨some 1, [("Andijon", some (-100500)), ("Toshkent", none)]⟩
        "Andijon" "Toshkent" = [-100500] ∧
    publish_cargo ⟨some 1, [("Andijon", some (-100500)), ("Toshkent", none)]⟩
        (fun _ => none) "Toshkent" "Andijon" = ([], []) :=
  ⟨(c2_publish_origin_only
      ⟨some 1, [("Andijon", some (-100500)), ("Toshkent", none)]⟩
      (fun _ => none) "Andijon" "Toshkent").2.2.2 (-100500) rfl,
   (c2_publish_origin_only
      ⟨some 1, [("Andijon", some (-100500)), ("Toshkent", none)]⟩
      (fun _ => none) "Toshkent" "Andijon").2.2.1 rfl⟩

/-! ## Broadcast (`admin_broadcast_content` send loop) -/

/-- The Mongo audience query of `admin_broadcast_content` as a predicate on
a user document: `drivers`/`shippers` filter on `role`, `pro` on
`pro_until > now`, anything else (``all``) matches everyone. -/
def audienceQueryMatch (audience : String) (now : Int) (u : UserRec) : Bool :=
  if audience == "drivers" then u.role == some ROLE_DRIVER
  else if audience == "shippers" then u.role == some ROLE_SHIPPER
  else if audience == "pro" then
    match u.pro_until with
    | some t => decide (now < t)
    | none => false
  else true

/-- The send loop of `admin_broadcast_content`: iterate the users matching
the audience query in collection order, attempt `copy_to` for each
(`sendOk`), count successes and failures independently (an exception only
increments `failed`).  Returns `((sent, failed), attempted ids)`. -/
def admin_broadcast_content_loop (audience : String) (now : Int)
    (sendOk : Int → Bool) : List (Int × UserRec) → (Nat × Nat) × List Int
  | [] => ((0, 0), [])
  | p :: rest =>
    let r := admin_broadcast_content_loop audience now sendOk rest
    if audienceQueryMatch audience now p.snd then
      if sendOk p.fst then ((r.fst.fst + 1, r.fst.snd), p.fst :: r.snd)
      else ((r.fst.fst, r.fst.snd + 1), p.fst :: r.snd)
    else r

/-- C7: broadcasting to audience `drivers` attempts a send exactly once for
each user whose role is driver and for no other user, regardless of the
send outcomes (a failure never halts the iteration), and the final counts
satisfy `sent + failed = number of matching users`.  In particular, with 3
driver users and 2 non-driver users exactly 3 attempts are made even when
one send fails. -/
theorem c7_broadcast_drivers_exactly_matching (users : List (Int × UserRec))
    (now : Int) (sendOk : Int → Bool) :
    (admin_broadcast_content_loop "drivers" now sendOk users).snd =
      (users.filter (fun p => p.snd.role == some ROLE_DRIVER)).map Prod.fst ∧
    (admin_broadcast_content_loop "drivers" now sendOk users).fst.fst +
      (admin_broadcast_content_loop "drivers" now sendOk users).fst.snd =
      (users.filter (fun p => p.snd.role == some ROLE_DRIVER)).length ∧
    (admin_broadcast_content_loop "drivers" 0 (fun uid => uid != 2)
        [(1, { role := some ROLE_DRIVER }), (2, { role := some ROLE_DRIVER }),
         (3, { role := some ROLE_SHIPPER }), (4, { role := none }),
         (5, { role := some ROLE_DRIVER })]).snd.length = 3 := by
  refine ⟨?_, ?_, by decide⟩ <;>
  · induction users with
    | nil => simp [admin_broadcast_content_loop]
    | cons p rest ih =>
      by_cases hm : audienceQueryMatch "drivers" now p.snd
      · have hrole : (p.snd.role == some ROLE_DRIVER) = true := by
          simpa [audienceQueryMatch] using hm
        by_cases hs : sendOk p.fst <;>
          simp [admin_broadcast_content_loop, hm, hs, hrole, ih] <;> omega
      · have hrole : (p.snd.role == some ROLE_DRIVER) = false := by
          simpa [audienceQueryMatch] using hm
        simp [admin_broadcast_content_loop, hm, hrole, ih]

/-! ## Session/State Machine

The per-user FSM: aiogram's `MemoryStorage` state and data embed as
`Session`; every message handler becomes a pure transition returning the
new session, the persistent writes it issues, and its outward effects.
`dispatch` mirrors the dispatcher's registration order for private text
messages (slash-commands other than the registered buttons fall outside
the embedding): `select_language` is registered before `cancel_flow` and
`menu_interrupt_handler`, which in turn precede every flow-state handler,
and `StateFilter(None)` handlers come last. -/

/-- FSM states: one constructor per `State()` of the seven `StatesGroup`s,
plus `idle` for aiogram's `None` state. -/
inductive Step
  | idle
  | languageSelect
  | regFirstName | regLastName | regPhone | regRole
  | driverCarType | driverCapacityTon | driverVolumeM3 | driverRoutes
  | driverPricePerKm | driverNote
  | cargoFromRegion | cargoToRegion | cargoCargoType | cargoWeightTon
  | cargoVolumeM3 | cargoPrice | cargoLoadDate | cargoPaymentType
  | cargoComment | cargoConfirm
  | settingsRole
  | broadcastAudience | broadcastContent
  | proAdd | proRemove
  | chCatalogChat | chRegionSelect | chRegionChat
  | chRequiredAdd | chRequiredRemove
deriving Repr, DecidableEq

/-- The FSM data dict: one optional field per key ever passed to
`state.update_data` (all reads go through `.get`, so a missing key and an
explicitly stored `None` both embed as `none`). -/
structure SessionData where
  first_name : Option String := none
  last_name : Option String := none
  phone : Option String := none
  driver_mode : Option String := none
  car_type : Option String := none
  capacity_ton : Option Rat := none
  volume_m3 : Option Rat := none
  routes : Option String := none
  price_per_km : Option Rat := none
  from_region : Option String := none
  to_region : Option String := none
  cargo_type : Option String := none
  weight_ton : Option Rat := none
  price : Option Rat := none
  load_date : Option String := none
  payment_type : Option String := none
  comment : Option String := none
  audience : Option String := none
  selected_region : Option String := none
deriving Repr, DecidableEq

/-- One user's conversation session: current step plus accumulated data.
`state.clear()` resets both to the defaults. -/
structure Session where
  step : Step := .idle
  data : SessionData := {}
deriving Repr, DecidableEq

/-- A committed cargo listing's user-entered fields (`cargo_doc`). -/
structure CargoDoc where
  from_region : String
  to_region : String
  cargo_type : String
  weight_ton : Rat
  volume_m3 : Rat
  price : Rat
  load_date : String
  payment_type : String
  comment : String
deriving Repr, DecidableEq

/-- Persistent-store mutations a handler issues, in order. -/
inductive DbWrite
  | ensureUser
  | setUserLang (lang : String)
  | setUserFields (first_name last_name phone : Option String)
      (role : String) (profile_completed : Bool)
  | setUserDriverSave (profile : DriverProfile) (profile_completed : Bool)
  | setRole (role : String) (profile_completed : Bool)
  | insertCargo (doc : CargoDoc)
  | setCargoPostResult (sent : List Int) (failed : List String)
  | setProUntil (uid t : Int)
  | clearPro (uid : Int)
  | setCatalogChat (chatId : Int)
  | setRegionChat (region : String) (chatId : Int)
  | addMandatory (chatId : Int)
  | removeMandatory (chatId : Int)
deriving Repr, DecidableEq

/-- Outward effects: replies to the user (fixed texts verbatim; texts
computed from state carry that state) and transport sends. -/
inductive Eff
  | reply (text : String)
  | subscribeReply
  | profileReply (u : UserRec)
  | analysisReply (u : UserRec)
  | statsReply
  | adminStatsReply
  | adminUsersReply
  | channelsOverviewReply
  | mandatoryListReply
  | guideReply
  | proInfoReply
  | newsReply
  | contactReply
  | previewReply (d : SessionData)
  | regionConnectPrompt (region : String)
  | cargoResultReply (cargoId : String) (sent : List Int) (failed : List String)
  | broadcastDoneReply (sent failed : Nat)
  | proAddedReply (uid newUntil : Int)
  | proRemovedReply (uid : Int)
  | catalogSavedReply (chatId : Int) (ok : Bool) (statusText : String)
  | regionSavedReply (region : String) (chatId : Int) (ok : Bool)
      (statusText : String)
  | reqAddedReply (chatId : Int)
  | reqAddFailReply (chatId : Int)
  | reqRemovedReply (chatId : Int)
  | reqNotFoundReply
  | post (chatId : Int)
  | copyTo (uid : Int)
  | notify (uid : Int)
  | unhandledError
deriving Repr, DecidableEq

/-- Result of handling one inbound message. -/
structure StepResult where
  session : Session
  writes : List DbWrite := []
  effects : List Eff := []
deriving Repr, DecidableEq

/-- The world the handlers read: the stored user (`ensure_user` /
`fetch_user` result, with `userFound = false` for a missing `fetch_user`),
admin status, mandatory-subscription status, the number parser
(`parse_positive_number`, backed by Python float parsing), the transport,
the users collection, channel config, the clock, and the id Mongo assigns
to an inserted cargo document. -/
structure Env where
  user : UserRec := {}
  userFound : Bool := true
  isAdmin : Bool := false
  subscribed : Bool := true
  parseNum : String → Option Rat := fun _ => none
  getChat : String → Option Int := fun _ => none
  sendCargo : Int → Option String := fun _ => none
  sendUser : Int → Bool := fun _ => true
  chatInfoOk : Int → Bool := fun _ => true
  users : UserStore := []
  cfg : ChannelConfig := {}
  now : Int := 0
  checkWritable : Int → Bool × String := fun _ => (true, "")
  newCargoId : String := ""
  mandatory : List Int := []

/-- `ensure_mandatory_subscription_message`: admins always pass, others
pass when no mandatory channel is missing. -/
def subscriptionPass (env : Env) : Bool := env.isAdmin || env.subscribed

def REGIONS : List String :=
  ["Andijon", "Buxoro", "Farg\x27ona", "Jizzax", "Namangan", "Navoiy",
   "Qashqadaryo", "Samarqand", "Sirdaryo", "Surxondaryo", "Toshkent",
   "Xorazm"]

/-- Python `str.lower()` on an ASCII character. -/
def pyLowerChar (c : Char) : Char :=
  if 'A' ≤ c && c ≤ 'Z' then Char.ofNat (c.toNat + 32) else c

/-- `re.sub(r"[^a-z0-9]", "", value.lower())` on the stripped value. -/
def regionKey (s : String) : List Char :=
  (((pyStrip s).toList.map pyLowerChar).filter
    (fun c => c.isLower || c.isDigit))

/-- `normalize_region`: the canonical region whose key matches. -/
def normalize_region (raw : String) : Option String :=
  REGIONS.find? (fun region => regionKey region == regionKey raw)

/-- `parse_phone`: remove whitespace, accept `\+?\d{9,15}`. -/
def parse_phone (value : String) : Option String :=
  let cleaned := String.mk ((pyStrip value).toList.filter (fun c => !isPyWs c))
  let l := cleaned.toList
  let core := match l with
    | '+' :: r => r
    | r => r
  if core.all Char.isDigit && decide (9 ≤ core.length) &&
     decide (core.length ≤ 15) then some cleaned
  else none

def pySplitAux : List Char → List Char → List String
  | [], acc => if acc.isEmpty then [] else [String.mk acc.reverse]
  | c :: rest, acc =>
    if isPyWs c then
      if acc.isEmpty then pySplitAux rest []
      else String.mk acc.reverse :: pySplitAux rest []
    else pySplitAux rest (c :: acc)

/-- Python `str.split()` with no argument: split on whitespace runs. -/
def pySplit (s : String) : List String := pySplitAux s.toList []

/-- Python `str.lstrip("-")`. -/
def lstripDash (s : String) : String :=
  String.mk (s.toList.dropWhile (fun c => c == '-'))

/-- Python `str.isdigit()` (ASCII digits). -/
def pyIsDigit (s : String) : Bool :=
  !s.toList.isEmpty && s.toList.all Char.isDigit

/-- Python truthiness of an optional string (`None` and `""` are falsy). -/
def truthyStr : Option String → Bool
  | none => false
  | some s => s != ""

/-- Python truthiness of an optional number (`None` and `0` are falsy). -/
def truthyRat : Option Rat → Bool
  | none => false
  | some q => q != 0

def LANG_LABEL_TO_CODE : List (String × String) :=
  [(LANG_SELECT_UZ, LANG_UZ), (LANG_SELECT_RU, LANG_RU)]

def LABEL_TO_ROLE : List (String × String) :=
  [(ROLE_LABEL_DRIVER, ROLE_DRIVER), (ROLE_LABEL_SHIPPER, ROLE_SHIPPER),
   (ROLE_LABEL_DRIVER_RU, ROLE_DRIVER),
   (ROLE_LABEL_SHIPPER_RU, ROLE_SHIPPER)]

def denialMsg : String := "⛔ Sizda admin huquqi yo\x27q."
def welcomeRegPrompt : String :=
  "👋 Assalomu alaykum!\nLogistik platformaga xush kelibsiz.\n\n🧾 Ismingizni kiriting:"
def driverFormPrompt : String :=
  "🚛 <b>Haydovchi anketasi</b>\nMashina turini kiriting (masalan: Fura, Isuzu, Tent, Ref)."
def cargoFormPrompt : String := "📍 Yuk qayerdan yuklanadi? Viloyatni tanlang:"
def proAddFormatMsg : String :=
  "Format: <code>user_id kun</code>\nMasalan: <code>123456789 30</code>"
def proRemoveFormatMsg : String :=
  "Format: <code>user_id</code>\nMasalan: <code>123456789</code>"

/-- `select_language` (`LanguageFSM.select` handler, registered before the
interrupt handlers): an unrecognized text — including every menu/cancel
button — only re-prompts and leaves the session untouched. -/
def select_language (env : Env) (d : SessionData) (text : String) :
    StepResult :=
  match dictGet LANG_LABEL_TO_CODE (pyStrip text) with
  | none =>
      ⟨⟨.languageSelect, d⟩, [],
       [.reply "Tilni tugma orqali tanlang / Выберите язык кнопкой."]⟩
  | some lang =>
      if env.user.profile_completed then
        ⟨⟨.idle, {}⟩, [.setUserLang lang, .ensureUser],
         [.reply "✅ Til saqlandi. Asosiy menyu."]⟩
      else
        ⟨⟨.regFirstName, d⟩, [.setUserLang lang, .ensureUser],
         [.reply welcomeRegPrompt]⟩

/-- `cargo_confirm` (`CargoFSM.confirm`): the edit token only rewinds the
step (`state.set_state`, no clear — the accumulated data stays); the
confirm token commits, publishes via `publish_cargo`, and clears. -/
def cargo_confirm (env : Env) (d : SessionData) (text : String) :
    StepResult :=
  let t := pyStrip text
  if t = BTN_CARGO_EDIT then
    ⟨⟨.cargoFromRegion, d⟩, [],
     [.reply "Tahrirlash boshlandi. Qayerdan yuklanadi?"]⟩
  else if t ≠ BTN_CARGO_CONFIRM then
    ⟨⟨.cargoConfirm, d⟩, [], [.reply "Pastdagi tugmalardan birini tanlang."]⟩
  else if !env.userFound then
    ⟨⟨.idle, {}⟩, [], [.reply "Xatolik: foydalanuvchi topilmadi."]⟩
  else
    match d.from_region, d.to_region, d.cargo_type, d.weight_ton,
        d.volume_m3, d.price, d.load_date, d.payment_type, d.comment with
    | some fr, some tr, some ct, some w, some v, some pr, some ld,
      some pt, some cm =>
        let doc : CargoDoc := ⟨fr, tr, ct, w, v, pr, ld, pt, cm⟩
        let outcome := publish_cargo env.cfg env.sendCargo fr tr
        ⟨⟨.idle, {}⟩,
         [.insertCargo doc, .setCargoPostResult outcome.fst outcome.snd],
         (resolve_target_chats env.cfg fr tr).map .post ++
           [.cargoResultReply env.newCargoId outcome.fst outcome.snd]⟩
    | _, _, _, _, _, _, _, _, _ => ⟨⟨.idle, {}⟩, [], [.unhandledError]⟩

/-- `driver_note` (`DriverFSM.note`): the terminal step; the skip token
stores a null note; the profile is committed with `profile_completed =
True` and the session cleared. -/
def driver_note (d : SessionData) (text : String) : StepResult :=
  let t := pyStrip text
  let note : Option String := if t = BTN_SKIP then none else some t
  let profile : DriverProfile :=
    ⟨d.car_type, d.capacity_ton, d.volume_m3, d.routes, d.price_per_km, note⟩
  ⟨⟨.idle, {}⟩, [.setUserDriverSave profile true],
   [.reply "✅ Haydovchi anketasi saqlandi."]⟩

/-- `settings_change_role` (`SettingsFSM.role`). -/
def settings_change_role (env : Env) (d : SessionData) (text : String) :
    StepResult :=
  match dictGet LABEL_TO_ROLE (pyStrip text) with
  | none => ⟨⟨.settingsRole, d⟩, [], [.reply "Rolni tugmadan tanlang."]⟩
  | some role =>
    if !env.userFound then
      ⟨⟨.settingsRole, d⟩, [], [.reply "Foydalanuvchi topilmadi."]⟩
    else if role = ROLE_SHIPPER then
      ⟨⟨.idle, {}⟩, [.setRole ROLE_SHIPPER true],
       [.reply "✅ Rolingiz yuk beruvchi qilib yangilandi."]⟩
    else
      let dp := env.user.driver_profile
      let profileReady := truthyStr dp.car_type && truthyRat dp.capacity_ton
        && truthyRat dp.volume_m3 && truthyStr dp.routes
      if profileReady then
        ⟨⟨.idle, {}⟩, [.setRole ROLE_DRIVER true],
         [.reply "✅ Rolingiz haydovchi qilib yangilandi."]⟩
      else
        ⟨⟨.driverCarType, { driver_mode := some "settings" }⟩,
         [.setRole ROLE_DRIVER false], [.reply driverFormPrompt]⟩

/-- `admin_broadcast_content` (`AdminBroadcastFSM.content`): non-admins
are denied — but the session is still cleared; otherwise the audience
query drives the send loop and the session is cleared afterwards. -/
def admin_broadcast_content (env : Env) (d : SessionData) : StepResult :=
  if !env.isAdmin then ⟨⟨.idle, {}⟩, [], [.reply denialMsg]⟩
  else
    let audience := d.audience.getD "all"
    let r := admin_broadcast_content_loop audience env.now env.sendUser
      env.users
    ⟨⟨.idle, {}⟩, [],
     r.snd.map .copyTo ++ [.broadcastDoneReply r.fst.fst r.fst.snd]⟩

/-- `admin_pro_add_state` (`AdminProFSM.add`). -/
def admin_pro_add_state (env : Env) (d : SessionData) (text : String) :
    StepResult :=
  if !env.isAdmin then ⟨⟨.idle, {}⟩, [], [.reply denialMsg]⟩
  else
    let parts := pySplit text
    match parts with
    | [p0, p1] =>
      if !(pyIsDigit (lstripDash p0) && pyIsDigit p1) then
        ⟨⟨.proAdd, d⟩, [], [.reply "Noto\x27g\x27ri format. Raqam kiriting."]⟩
      else
        match parseIntText p0.toList, parseIntText p1.toList with
        | some uid, some days =>
          if days ≤ 0 then
            ⟨⟨.proAdd, d⟩, [],
             [.reply "Kun soni 0 dan katta bo\x27lishi kerak."]⟩
          else
            match (apply_pro env.users env.now uid days).fst with
            | none => ⟨⟨.proAdd, d⟩, [], [.reply "Foydalanuvchi topilmadi."]⟩
            | some newUntil =>
                ⟨⟨.idle, {}⟩, [.setProUntil uid newUntil],
                 [.proAddedReply uid newUntil, .notify uid]⟩
        | _, _ => ⟨⟨.proAdd, d⟩, [], [.unhandledError]⟩
    | _ => ⟨⟨.proAdd, d⟩, [], [.reply proAddFormatMsg]⟩

/-- `admin_pro_remove_state` (`AdminProFSM.remove`). -/
def admin_pro_remove_state (env : Env) (d : SessionData) (text : String) :
    StepResult :=
  if !env.isAdmin then ⟨⟨.idle, {}⟩, [], [.reply denialMsg]⟩
  else
    let raw := pyStrip text
    if !pyIsDigit (lstripDash raw) then
      ⟨⟨.proRemove, d⟩, [],
       [.reply "Faqat user_id kiriting. Masalan: <code>123456789</code>"]⟩
    else
      match parseIntText raw.toList with
      | none => ⟨⟨.proRemove, d⟩, [], [.unhandledError]⟩
      | some uid =>
        match storeGet env.users uid with
        | none => ⟨⟨.proRemove, d⟩, [], [.reply "Foydalanuvchi topilmadi."]⟩
        | some _ =>
            ⟨⟨.idle, {}⟩, [.clearPro uid],
             [.proRemovedReply uid, .notify uid]⟩

/-- `admin_set_catalog_chat` (`AdminChannelFSM.catalog_chat`). -/
def admin_set_catalog_chat (env : Env) (d : SessionData) (text : String) :
    StepResult :=
  if !env.isAdmin then ⟨⟨.idle, {}⟩, [], [.reply denialMsg]⟩
  else
    let r := resolve_chat_id_from_text env.getChat text
    match r.chatId with
    | none =>
        ⟨⟨.chCatalogChat, d⟩, [],
         [.reply (r.error.getD "Chat ID topilmadi.")]⟩
    | some chatId =>
        let check := env.checkWritable chatId
        ⟨⟨.idle, {}⟩, [.setCatalogChat chatId],
         [.catalogSavedReply chatId check.fst check.snd]⟩

/-- `admin_select_region` (`AdminChannelFSM.region_select`) — note: no
admin check in the source. -/
def admin_select_region (d : SessionData) (text : String) : StepResult :=
  match normalize_region text with
  | none =>
      ⟨⟨.chRegionSelect, d⟩, [], [.reply "Viloyatni tugmadan tanlang."]⟩
  | some region =>
      ⟨⟨.chRegionChat, { d with selected_region := some region }⟩, [],
       [.regionConnectPrompt region]⟩

/-- `admin_set_region_chat` (`AdminChannelFSM.region_chat`). -/
def admin_set_region_chat (env : Env) (d : SessionData) (text : String) :
    StepResult :=
  if !env.isAdmin then ⟨⟨.idle, {}⟩, [], [.reply denialMsg]⟩
  else
    let r := resolve_chat_id_from_text env.getChat text
    match r.chatId with
    | none =>
        ⟨⟨.chRegionChat, d⟩, [], [.reply (r.error.getD "Chat ID topilmadi.")]⟩
    | some chatId =>
      match d.selected_region with
      | none =>
          ⟨⟨.idle, {}⟩, [],
           [.reply "Xatolik: viloyat tanlanmadi."]⟩
      | some region =>
          let check := env.checkWritable chatId
          ⟨⟨.idle, {}⟩, [.setRegionChat region chatId],
           [.regionSavedReply region chatId check.fst check.snd]⟩

/-- `admin_required_add_state` (`AdminChannelFSM.required_add`). -/
def admin_required_add_state (env : Env) (d : SessionData) (text : String) :
    StepResult :=
  if !env.isAdmin then ⟨⟨.idle, {}⟩, [], [.reply denialMsg]⟩
  else
    let r := resolve_chat_id_from_text env.getChat text
    match r.chatId with
    | none =>
        ⟨⟨.chRequiredAdd, d⟩, [], [.reply (r.error.getD "Chat aniqlanmadi.")]⟩
    | some chatId =>
      if !env.chatInfoOk chatId then
        ⟨⟨.chRequiredAdd, d⟩, [], [.reqAddFailReply chatId]⟩
      else
        ⟨⟨.idle, {}⟩, [.addMandatory chatId], [.reqAddedReply chatId]⟩

/-- `admin_required_remove_state` (`AdminChannelFSM.required_remove`). -/
def admin_required_remove_state (env : Env) (d : SessionData)
    (text : String) : StepResult :=
  if !env.isAdmin then ⟨⟨.idle, {}⟩, [], [.reply denialMsg]⟩
  else
    let r := resolve_chat_id_from_text env.getChat text
    match r.chatId with
    | none =>
        ⟨⟨.chRequiredRemove, d⟩, [],
         [.reply (r.error.getD "Chat aniqlanmadi.")]⟩
    | some chatId =>
      if env.mandatory.contains chatId then
        ⟨⟨.idle, {}⟩, [.removeMandatory chatId], [.reqRemovedReply chatId]⟩
      else
        ⟨⟨.idle, {}⟩, [], [.reqNotFoundReply]⟩

/-- The flow-state handlers (the handler aiogram selects once no
earlier-registered handler matched), one case per FSM state. -/
def stepHandler (env : Env) (step : Step) (d : SessionData)
    (text : String) : StepResult :=
  match step with
  | .idle => ⟨⟨.idle, d⟩, [], []⟩
  | .languageSelect => select_language env d text
  | .regFirstName =>
    let t := pyStrip text
    if t.length < 2 then
      ⟨⟨.regFirstName, d⟩, [],
       [.reply "Ism kamida 2 ta harf bo\x27lsin. Qayta kiriting:"]⟩
    else
      ⟨⟨.regLastName, { d with first_name := some t }⟩, [],
       [.reply "🧾 Familiyangizni kiriting:"]⟩
  | .regLastName =>
    let t := pyStrip text
    if t.length < 2 then
      ⟨⟨.regLastName, d⟩, [],
       [.reply "Familiya kamida 2 ta harf bo\x27lsin. Qayta kiriting:"]⟩
    else
      ⟨⟨.regPhone, { d with last_name := some t }⟩, [],
       [.reply "📱 Telefon raqamingizni yuboring:"]⟩
  | .regPhone =>
    match parse_phone text with
    | none =>
        ⟨⟨.regPhone, d⟩, [],
         [.reply "Telefon formati noto\x27g\x27ri. Masalan: +998901234567"]⟩
    | some phone =>
        ⟨⟨.regRole, { d with phone := some phone }⟩, [],
         [.reply "Sizning rolingizni tanlang:"]⟩
  | .regRole =>
    match dictGet LABEL_TO_ROLE (pyStrip text) with
    | none =>
        ⟨⟨.regRole, d⟩, [], [.reply "Pastdagi tugmalardan birini tanlang."]⟩
    | some role =>
      if role = ROLE_SHIPPER then
        ⟨⟨.idle, {}⟩,
         [.setUserFields d.first_name d.last_name d.phone role true],
         [.reply "✅ Ro\x27yxatdan o\x27tish tugadi. Endi yuk joylashingiz mumkin."]⟩
      else
        ⟨⟨.driverCarType, { driver_mode := some "registration" }⟩,
         [.setUserFields d.first_name d.last_name d.phone role false],
         [.reply driverFormPrompt]⟩
  | .driverCarType =>
    let t := pyStrip text
    if t.length < 2 then
      ⟨⟨.driverCarType, d⟩, [],
       [.reply "Mashina turi juda qisqa. Qayta kiriting:"]⟩
    else
      ⟨⟨.driverCapacityTon, { d with car_type := some t }⟩, [],
       [.reply "⚖️ Yuk sig\x27imini kiriting (tonna):"]⟩
  | .driverCapacityTon =>
    match env.parseNum text with
    | none =>
        ⟨⟨.driverCapacityTon, d⟩, [], [.reply "Raqam kiriting. Masalan: 20"]⟩
    | some v =>
        ⟨⟨.driverVolumeM3, { d with capacity_ton := some v }⟩, [],
         [.reply "📐 Hajmini kiriting (m3):"]⟩
  | .driverVolumeM3 =>
    match env.parseNum text with
    | none =>
        ⟨⟨.driverVolumeM3, d⟩, [], [.reply "Raqam kiriting. Masalan: 86"]⟩
    | some v =>
        ⟨⟨.driverRoutes, { d with volume_m3 := some v }⟩, [],
         [.reply "📍 Qaysi yo\x27nalishlarda ishlaysiz? (masalan: Toshkent-Samarqand-Farg\x27ona)"]⟩
  | .driverRoutes =>
    let t := pyStrip text
    if t.length < 3 then
      ⟨⟨.driverRoutes, d⟩, [], [.reply "Yo\x27nalishni to\x27liqroq yozing."]⟩
    else
      ⟨⟨.driverPricePerKm, { d with routes := some t }⟩, [],
       [.reply "💵 1 km uchun narx (ixtiyoriy):"]⟩
  | .driverPricePerKm =>
    let t := pyStrip text
    if t = BTN_SKIP then
      ⟨⟨.driverNote, { d with price_per_km := none }⟩, [],
       [.reply "📝 Qo\x27shimcha izoh (ixtiyoriy):"]⟩
    else
      match env.parseNum t with
      | none =>
          ⟨⟨.driverPricePerKm, d⟩, [],
           [.reply "Raqam kiriting yoki `⏭ O\x27tkazib yuborish` ni bosing."]⟩
      | some v =>
          ⟨⟨.driverNote, { d with price_per_km := some v }⟩, [],
           [.reply "📝 Qo\x27shimcha izoh (ixtiyoriy):"]⟩
  | .driverNote => driver_note d text
  | .cargoFromRegion =>
    match normalize_region text with
    | none =>
        ⟨⟨.cargoFromRegion, d⟩, [], [.reply "Viloyatni tugmadan tanlang."]⟩
    | some region =>
        ⟨⟨.cargoToRegion, { d with from_region := some region }⟩, [],
         [.reply "🏁 Yuk qayerga boradi? Viloyatni tanlang:"]⟩
  | .cargoToRegion =>
    match normalize_region text with
    | none =>
        ⟨⟨.cargoToRegion, d⟩, [], [.reply "Viloyatni tugmadan tanlang."]⟩
    | some region =>
        ⟨⟨.cargoCargoType, { d with to_region := some region }⟩, [],
         [.reply "📦 Yuk turini kiriting (masalan: sement, mebel, oziq-ovqat):"]⟩
  | .cargoCargoType =>
    let t := pyStrip text
    if t.length < 2 then
      ⟨⟨.cargoCargoType, d⟩, [], [.reply "Yuk turini to\x27liqroq kiriting."]⟩
    else
      ⟨⟨.cargoWeightTon, { d with cargo_type := some t }⟩, [],
       [.reply "⚖️ Og\x27irligini kiriting (tonna):"]⟩
  | .cargoWeightTon =>
    match env.parseNum text with
    | none =>
        ⟨⟨.cargoWeightTon, d⟩, [], [.reply "Raqam kiriting. Masalan: 22"]⟩
    | some v =>
        ⟨⟨.cargoVolumeM3, { d with weight_ton := some v }⟩, [],
         [.reply "📐 Hajmini kiriting (m3):"]⟩
  | .cargoVolumeM3 =>
    match env.parseNum text with
    | none =>
        ⟨⟨.cargoVolumeM3, d⟩, [], [.reply "Raqam kiriting. Masalan: 86"]⟩
    | some v =>
        ⟨⟨.cargoPrice, { d with volume_m3 := some v }⟩, [],
         [.reply "💰 Taklif narxini kiriting (so\x27m):"]⟩
  | .cargoPrice =>
    match env.parseNum text with
    | none =>
        ⟨⟨.cargoPrice, d⟩, [],
         [.reply "Narxni raqamda kiriting. Masalan: 2500000"]⟩
    | some v =>
        ⟨⟨.cargoLoadDate, { d with price := some v }⟩, [],
         [.reply "📅 Yuklash sanasi (masalan: 25.02.2026 yoki bugun):"]⟩
  | .cargoLoadDate =>
    let t := pyStrip text
    if t.length < 2 then
      ⟨⟨.cargoLoadDate, d⟩, [], [.reply "Yuklash sanasini kiriting."]⟩
    else
      ⟨⟨.cargoPaymentType, { d with load_date := some t }⟩, [],
       [.reply "💳 To\x27lov turini tanlang:"]⟩
  | .cargoPaymentType =>
    let t := pyStrip text
    if !PAYMENT_OPTIONS.contains t then
      ⟨⟨.cargoPaymentType, d⟩, [],
       [.reply "To\x27lov turini tugmadan tanlang."]⟩
    else
      ⟨⟨.cargoComment, { d with payment_type := some t }⟩, [],
       [.reply "📝 Qo\x27shimcha izoh (ixtiyoriy):"]⟩
  | .cargoComment =>
    let t := pyStrip text
    let comment := if t = BTN_SKIP then "-" else t
    let d2 := { d with comment := some comment }
    ⟨⟨.cargoConfirm, d2⟩, [], [.previewReply d2]⟩
  | .cargoConfirm => cargo_confirm env d text
  | .settingsRole => settings_change_role env d text
  | .broadcastAudience =>
    let mapping : List (String × String) :=
      [(BTN_BC_ALL, "all"), (BTN_BC_DRIVERS, "drivers"),
       (BTN_BC_SHIPPERS, "shippers"), (BTN_BC_PRO, "pro")]
    match dictGet mapping (pyStrip text) with
    | none =>
        ⟨⟨.broadcastAudience, d⟩, [],
         [.reply "Auditoriyani tugmadan tanlang."]⟩
    | some audience =>
        ⟨⟨.broadcastContent, { d with audience := some audience }⟩, [],
         [.reply "Yuboriladigan xabarni yuboring (text/photo/video ham bo\x27lishi mumkin)."]⟩
  | .broadcastContent => admin_broadcast_content env d
  | .proAdd => admin_pro_add_state env d text
  | .proRemove => admin_pro_remove_state env d text
  | .chCatalogChat => admin_set_catalog_chat env d text
  | .chRegionSelect => admin_select_region d text
  | .chRegionChat => admin_set_region_chat env d text
  | .chRequiredAdd => admin_required_add_state env d text
  | .chRequiredRemove => admin_required_remove_state env d text

/-- `cancel_flow` (`/cancel`, `❌ Bekor qilish`): with no active state,
just the main menu; otherwise clear and confirm cancellation. -/
def cancel_flow (sess : Session) : StepResult :=
  if sess.step = Step.idle then ⟨sess, [], [.reply "Asosiy menyu."]⟩
  else ⟨⟨.idle, {}⟩, [], [.reply "❌ Jarayon bekor qilindi."]⟩

/-- `route_menu_button`: dispatch a (canonical) menu button to its menu
handler, in source order.  `sess` is the session as the handler sees it
(already cleared by `menu_interrupt_handler`). -/
def route_menu_button (env : Env) (sess : Session) (text : String) :
    StepResult :=
  if text = BTN_MENU_PROFILE then
    if !subscriptionPass env then ⟨sess, [], [.subscribeReply]⟩
    else if !env.user.profile_completed then
      ⟨sess, [.ensureUser],
       [.reply "Profilingiz tugallanmagan. /start orqali davom eting."]⟩
    else ⟨sess, [.ensureUser], [.profileReply env.user]⟩
  else if text = BTN_MENU_ANALYSIS then
    if !subscriptionPass env then ⟨sess, [], [.subscribeReply]⟩
    else if !env.user.profile_completed then
      ⟨sess, [.ensureUser],
       [.reply "Profilingiz tugallanmagan. /start ni bosing."]⟩
    else ⟨sess, [.ensureUser], [.analysisReply env.user]⟩
  else if text = BTN_MENU_STATS then
    if !subscriptionPass env then ⟨sess, [], [.subscribeReply]⟩
    else if !env.user.profile_completed then
      ⟨sess, [.ensureUser],
       [.reply "Profilingiz tugallanmagan. /start ni bosing."]⟩
    else ⟨sess, [.ensureUser], [.statsReply]⟩
  else if text = BTN_MENU_CARGO then
    if !subscriptionPass env then ⟨sess, [], [.subscribeReply]⟩
    else if !env.user.profile_completed then
      ⟨sess, [.ensureUser],
       [.reply "Profilingiz tugallanmagan. Avval /start orqali to\x27ldiring."]⟩
    else if env.user.role ≠ some ROLE_SHIPPER then
      ⟨sess, [.ensureUser],
       [.reply "📌 Yuk joylash faqat `Yuk beruvchi` roli uchun. Sozlamadan rolni almashtiring."]⟩
    else ⟨⟨.cargoFromRegion, {}⟩, [.ensureUser], [.reply cargoFormPrompt]⟩
  else if text = BTN_MENU_DRIVER then
    if !subscriptionPass env then ⟨sess, [], [.subscribeReply]⟩
    else if !env.user.profile_completed then
      ⟨sess, [.ensureUser],
       [.reply "Profilingiz tugallanmagan. Avval /start orqali to\x27ldiring."]⟩
    else
      ⟨⟨.driverCarType, { driver_mode := some "edit" }⟩, [.ensureUser],
       [.reply driverFormPrompt]⟩
  else if text = BTN_MENU_PRO then
    if !subscriptionPass env then ⟨sess, [], [.subscribeReply]⟩
    else ⟨sess, [], [.proInfoReply]⟩
  else if text = BTN_MENU_NEWS then
    if !subscriptionPass env then ⟨sess, [], [.subscribeReply]⟩
    else ⟨sess, [], [.newsReply]⟩
  else if text = BTN_MENU_CONTACT then
    if !subscriptionPass env then ⟨sess, [], [.subscribeReply]⟩
    else ⟨sess, [], [.contactReply]⟩
  else if text = BTN_MENU_SETTINGS then
    if !subscriptionPass env then ⟨sess, [], [.subscribeReply]⟩
    else ⟨sess, [], [.reply "⚙️ Sozlamalar:"]⟩
  else if text = BTN_SETTINGS_ROLE then
    if !subscriptionPass env then ⟨sess, [], [.subscribeReply]⟩
    else if !env.user.profile_completed then
      ⟨sess, [.ensureUser],
       [.reply "Profilingiz tugallanmagan. Avval /start orqali to\x27ldiring."]⟩
    else
      ⟨⟨.settingsRole, sess.data⟩, [.ensureUser],
       [.reply "Yangi rolni tanlang:"]⟩
  else if text = BTN_SETTINGS_LANG then
    ⟨⟨.languageSelect, sess.data⟩, [],
     [.reply "Tilni tanlang / Выберите язык:"]⟩
  else if text = BTN_BACK_MAIN then
    ⟨⟨.idle, {}⟩, [], [.reply "Asosiy menyu."]⟩
  else if text = BTN_ADMIN_PANEL then
    if !env.isAdmin then ⟨sess, [], [.reply denialMsg]⟩
    else ⟨sess, [], [.reply "🛠 <b>Admin panel</b>"]⟩
  else if text = BTN_ADMIN_STATS then
    if !env.isAdmin then ⟨sess, [], [.reply denialMsg]⟩
    else ⟨sess, [], [.adminStatsReply]⟩
  else if text = BTN_ADMIN_USERS then
    if !env.isAdmin then ⟨sess, [], [.reply denialMsg]⟩
    else ⟨sess, [], [.adminUsersReply]⟩
  else if text = BTN_BROADCAST then
    if !env.isAdmin then ⟨sess, [], [.reply denialMsg]⟩
    else
      ⟨⟨.broadcastAudience, sess.data⟩, [],
       [.reply "Qaysi auditoriyaga yuborilsin?"]⟩
  else if text = BTN_ADMIN_PRO then
    if !env.isAdmin then ⟨sess, [], [.reply denialMsg]⟩
    else ⟨sess, [], [.reply "💎 Pro boshqaruvi"]⟩
  else if text = BTN_PRO_ADD then
    if !env.isAdmin then ⟨sess, [], [.reply denialMsg]⟩
    else ⟨⟨.proAdd, sess.data⟩, [], [.reply proAddFormatMsg]⟩
  else if text = BTN_PRO_REMOVE then
    if !env.isAdmin then ⟨sess, [], [.reply denialMsg]⟩
    else ⟨⟨.proRemove, sess.data⟩, [], [.reply proRemoveFormatMsg]⟩
  else if text = BTN_ADMIN_CHANNELS then
    if !env.isAdmin then ⟨sess, [], [.reply denialMsg]⟩
    else ⟨sess, [], [.reply "🌐 Kanal/Guruh sozlash"]⟩
  else if text = BTN_CH_SET_CATALOG then
    if !env.isAdmin then ⟨sess, [], [.reply denialMsg]⟩
    else
      ⟨⟨.chCatalogChat, sess.data⟩, [],
       [.reply "Katalog chatni ulang.\n• `-100...` chat ID yuboring yoki\n• `@username` / `https://t.me/...` link yuboring yoki\n• Katalog kanal/guruhdan forward qilingan xabar yuboring."]⟩
  else if text = BTN_CH_SET_REGION then
    if !env.isAdmin then ⟨sess, [], [.reply denialMsg]⟩
    else ⟨⟨.chRegionSelect, sess.data⟩, [], [.reply "Viloyatni tanlang:"]⟩
  else if text = BTN_CH_LIST then
    if !env.isAdmin then ⟨sess, [], [.reply denialMsg]⟩
    else ⟨sess, [], [.channelsOverviewReply]⟩
  else if text = BTN_REQ_ADD then
    if !env.isAdmin then ⟨sess, [], [.reply denialMsg]⟩
    else
      ⟨⟨.chRequiredAdd, sess.data⟩, [],
       [.reply "Majburiy kanalni qo\x27shish uchun yuboring:\n• `-100...` chat ID yoki\n• `@username` / `https://t.me/...` link yoki\n• kanaldan forward xabar"]⟩
  else if text = BTN_REQ_REMOVE then
    if !env.isAdmin then ⟨sess, [], [.reply denialMsg]⟩
    else
      ⟨⟨.chRequiredRemove, sess.data⟩, [],
       [.reply "Majburiy kanalni o\x27chirish uchun yuboring:\n• `-100...` chat ID yoki\n• `@username` / `https://t.me/...` link yoki\n• kanaldan forward xabar"]⟩
  else if text = BTN_REQ_LIST then
    if !env.isAdmin then ⟨sess, [], [.reply denialMsg]⟩
    else ⟨sess, [], [.mandatoryListReply]⟩
  else if text = BTN_ADMIN_GUIDE then
    if !env.isAdmin then ⟨sess, [], [.reply denialMsg]⟩
    else ⟨sess, [], [.guideReply]⟩
  else if text = BTN_BACK_ADMIN then
    if !env.isAdmin then ⟨⟨.idle, {}⟩, [], [.reply denialMsg]⟩
    else ⟨⟨.idle, {}⟩, [], [.reply "🛠 Admin panel"]⟩
  else ⟨sess, [], [.reply "Kerakli bo\x27limni menyudan tanlang."]⟩

/-- `menu_interrupt_handler`: cancel goes to `cancel_flow`; every other
interrupt token clears the session before routing to its menu action. -/
def menu_interrupt_handler (env : Env) (sess : Session) (text : String) :
    StepResult :=
  if text = BTN_CANCEL then cancel_flow sess
  else route_menu_button env ⟨.idle, {}⟩ text

/-- The `StateFilter(None)` fallback handler. -/
def fallback_handler (text : String) : StepResult :=
  if text.toList.head? = some '/' then
    ⟨⟨.idle, {}⟩, [],
     [.reply "Buyruq topilmadi. Menyudan foydalaning yoki /start ni bosing."]⟩
  else
    ⟨⟨.idle, {}⟩, [], [.reply "Kerakli bo\x27limni menyudan tanlang."]⟩

/-- The dispatcher for a private text message, in handler registration
order: the canonicalization middleware runs first, then
`select_language` (bound to `LanguageFSM.select`), then `cancel_flow`,
then `menu_interrupt_handler` (whose filter re-canonicalizes), then the
active flow-state handler, then the `StateFilter(None)` fallback. -/
def dispatch (env : Env) (sess : Session) (raw : String) : StepResult :=
  let text := canonicalize_user_text raw
  if sess.step = Step.languageSelect then select_language env sess.data text
  else if text = BTN_CANCEL then cancel_flow sess
  else if canonicalize_user_text text ∈ MENU_INTERRUPT_BUTTONS then
    menu_interrupt_handler env sess (canonicalize_user_text text)
  else if sess.step = Step.idle then fallback_handler text
  else stepHandler env sess.step sess.data text

/-- Runs a sequence of inbound texts through the dispatcher, tracking the
session. -/
def runInputs (env : Env) (sess : Session) (inputs : List String) : Session :=
  inputs.foldl (fun s t => (dispatch env s t).session) sess

/-- C1 (amended): a recognized menu interrupt token delivered at any
active flow step **other than the language-selection step** behaves
independently of the step and its accumulated data: a non-cancel token
clears the session and routes the menu action from the cleared session,
and cancel clears the session with the cancellation message.  At the
language-selection step, however, every interrupt token (cancel included)
is consumed by `select_language` as an invalid language choice and the
session — step and data — is left unchanged. -/
theorem c1_menu_interrupt_amended (env : Env) (token : String)
    (htok : token ∈ MENU_INTERRUPT_BUTTONS) (step : Step)
    (data : SessionData) (h1 : step ≠ Step.languageSelect)
    (h2 : step ≠ Step.idle) :
    (token ≠ BTN_CANCEL →
      dispatch env ⟨step, data⟩ token =
        route_menu_button env ⟨Step.idle, {}⟩ token) ∧
    (token = BTN_CANCEL →
      dispatch env ⟨step, data⟩ token =
        ⟨⟨Step.idle, {}⟩, [], [.reply "❌ Jarayon bekor qilindi."]⟩) ∧
    dispatch env ⟨Step.languageSelect, data⟩ token =
      ⟨⟨Step.languageSelect, data⟩, [],
       [.reply "Tilni tugma orqali tanlang / Выберите язык кнопкой."]⟩ := by
  have hcanon : canonicalize_user_text token = token := by
    fin_cases htok <;> rfl
  have hlang : dictGet LANG_LABEL_TO_CODE (pyStrip token) = none := by
    fin_cases htok <;> rfl
  refine ⟨?_, ?_, ?_⟩
  · intro hc
    simp [dispatch, hcanon, h1, h2, hc, menu_interrupt_handler, htok]
  · intro hc
    subst hc
    simp [dispatch, hcanon, h1, h2, cancel_flow]
  · simp [dispatch, hcanon, select_language, hlang]

/-- Witness for C1: the back-to-main token, mid cargo flow. -/
theorem c1_menu_interrupt_amended_witness :
    dispatch {} ⟨Step.cargoPrice, {}⟩ BTN_BACK_MAIN =
      route_menu_button {} ⟨Step.idle, {}⟩ BTN_BACK_MAIN :=
  (c1_menu_interrupt_amended {} BTN_BACK_MAIN (by decide) Step.cargoPrice {}
    (by decide) (by decide)).1 (by decide)

/-- Counterexample for C1 as frozen: at the language-selection step the
menu token `📦 Yuk joylash` does **not** clear the session or dispatch the
menu action — `select_language` re-prompts and the partially accumulated
data survives. -/
theorem c1_menu_interrupt_counterexample :
    dispatch {} ⟨Step.languageSelect, { first_name := some "Ali" }⟩
        BTN_MENU_CARGO =
      ⟨⟨Step.languageSelect, { first_name := some "Ali" }⟩, [],
       [.reply "Tilni tugma orqali tanlang / Выберите язык кнопкой."]⟩ ∧
    ({ first_name := some "Ali" } : SessionData) ≠ {} :=
  ⟨rfl, by decide⟩

/-- A message that is not an interrupt/cancel button and is fixed by the
canonicalization middleware reaches the active flow-state handler. -/
lemma dispatch_flow_step (env : Env) (step : Step) (d : SessionData)
    (t : String) (h1 : step ≠ Step.languageSelect) (h2 : step ≠ Step.idle)
    (hct : canonicalize_user_text t = t) (hc : t ≠ BTN_CANCEL)
    (hm : t ∉ MENU_INTERRUPT_BUTTONS) :
    dispatch env ⟨step, d⟩ t = stepHandler env step d t := by
  simp [dispatch, hct, h1, h2, hc, hm]

/-- A fully accumulated cargo session at the preview-and-confirm step. -/
def cargoFullData : SessionData :=
  { from_region := some "Andijon", to_region := some "Toshkent",
    cargo_type := some "mebel", weight_ton := some 5, volume_m3 := some 10,
    price := some 100, load_date := some "bugun",
    payment_type := some "💵 Naqd", comment := some "-" }

/-- `d` after the first `n` cargo steps have stored the re-entered values
`Andijon, Toshkent, mebel, 5, 10, 100, bugun, 💵 Naqd, izoh`. -/
def cargoRewrite (d : SessionData) (n : Nat) : SessionData :=
  let s1 := { d with from_region := some "Andijon" }
  let s2 := { s1 with to_region := some "Toshkent" }
  let s3 := { s2 with cargo_type := some "mebel" }
  let s4 := { s3 with weight_ton := some 5 }
  let s5 := { s4 with volume_m3 := some 10 }
  let s6 := { s5 with price := some 100 }
  let s7 := { s6 with load_date := some "bugun" }
  let s8 := { s7 with payment_type := some "💵 Naqd" }
  let s9 := { s8 with comment := some "izoh" }
  match n with
  | 0 => d
  | 1 => s1
  | 2 => s2
  | 3 => s3
  | 4 => s4
  | 5 => s5
  | 6 => s6
  | 7 => s7
  | 8 => s8
  | _ => s9

/-- C6 (amended): at the preview-and-confirm step the edit token rewinds
the session to the first step (origin region) but does **not** clear the
accumulated values — the data dict is retained verbatim.  Every field is
then overwritten as the flow is re-traversed: re-running all nine steps
with fresh valid inputs leaves the cargo fields equal to exactly the new
inputs, for any pre-edit data `d`. -/
theorem c6_cargo_edit_amended (env : Env) (d : SessionData)
    (h5 : env.parseNum "5" = some 5) (h10 : env.parseNum "10" = some 10)
    (h100 : env.parseNum "100" = some 100) :
    dispatch env ⟨Step.cargoConfirm, d⟩ BTN_CARGO_EDIT =
      ⟨⟨Step.cargoFromRegion, d⟩, [],
       [.reply "Tahrirlash boshlandi. Qayerdan yuklanadi?"]⟩ ∧
    runInputs env ⟨Step.cargoFromRegion, d⟩
        ["Andijon", "Toshkent", "mebel", "5", "10", "100", "bugun",
         "💵 Naqd", "izoh"] =
      ⟨Step.cargoConfirm, cargoRewrite d 9⟩ := by
  constructor
  · rw [dispatch_flow_step env _ d BTN_CARGO_EDIT (by decide) (by decide)
      (by decide) (by decide) (by decide)]
    simp only [stepHandler, cargo_confirm]
    rw [if_pos (by decide : pyStrip BTN_CARGO_EDIT = BTN_CARGO_EDIT)]
  · have e1 : (dispatch env ⟨Step.cargoFromRegion, cargoRewrite d 0⟩
        "Andijon").session = ⟨Step.cargoToRegion, cargoRewrite d 1⟩ := by
      rw [dispatch_flow_step env _ _ _ (by decide) (by decide) (by decide)
        (by decide) (by decide)]
      simp only [stepHandler]
      rw [show normalize_region "Andijon" = some "Andijon" from by decide]
      rfl
    have e2 : (dispatch env ⟨Step.cargoToRegion, cargoRewrite d 1⟩
        "Toshkent").session = ⟨Step.cargoCargoType, cargoRewrite d 2⟩ := by
      rw [dispatch_flow_step env _ _ _ (by decide) (by decide) (by decide)
        (by decide) (by decide)]
      simp only [stepHandler]
      rw [show normalize_region "Toshkent" = some "Toshkent" from by decide]
      rfl
    have e3 : (dispatch env ⟨Step.cargoCargoType, cargoRewrite d 2⟩
        "mebel").session = ⟨Step.cargoWeightTon, cargoRewrite d 3⟩ := by
      rw [dispatch_flow_step env _ _ _ (by decide) (by decide) (by decide)
        (by decide) (by decide)]
      simp only [stepHandler]
      rw [if_neg (by decide : ¬((pyStrip "mebel").length < 2))]
      rfl
    have e4 : (dispatch env ⟨Step.cargoWeightTon, cargoRewrite d 3⟩
        "5").session = ⟨Step.cargoVolumeM3, cargoRewrite d 4⟩ := by
      rw [dispatch_flow_step env _ _ _ (by decide) (by decide) (by decide)
        (by decide) (by decide)]
      simp only [stepHandler]
      rw [h5]
      rfl
    have e5 : (dispatch env ⟨Step.cargoVolumeM3, cargoRewrite d 4⟩
        "10").session = ⟨Step.cargoPrice, cargoRewrite d 5⟩ := by
      rw [dispatch_flow_step env _ _ _ (by decide) (by decide) (by decide)
        (by decide) (by decide)]
      simp only [stepHandler]
      rw [h10]
      rfl
    have e6 : (dispatch env ⟨Step.cargoPrice, cargoRewrite d 5⟩
        "100").session = ⟨Step.cargoLoadDate, cargoRewrite d 6⟩ := by
      rw [dispatch_flow_step env _ _ _ (by decide) (by decide) (by decide)
        (by decide) (by decide)]
      simp only [stepHandler]
      rw [h100]
      rfl
    have e7 : (dispatch env ⟨Step.cargoLoadDate, cargoRewrite d 6⟩
        "bugun").session = ⟨Step.cargoPaymentType, cargoRewrite d 7⟩ := by
      rw [dispatch_flow_step env _ _ _ (by decide) (by decide) (by decide)
        (by decide) (by decide)]
      simp only [stepHandler]
      rw [if_neg (by decide : ¬((pyStrip "bugun").length < 2))]
      rfl
    have e8 : (dispatch env ⟨Step.cargoPaymentType, cargoRewrite d 7⟩
        "💵 Naqd").session = ⟨Step.cargoComment, cargoRewrite d 8⟩ := by
      rw [dispatch_flow_step env _ _ _ (by decide) (by decide) (by decide)
        (by decide) (by decide)]
      simp only [stepHandler]
      rfl
    have e9 : (dispatch env ⟨Step.cargoComment, cargoRewrite d 8⟩
        "izoh").session = ⟨Step.cargoConfirm, cargoRewrite d 9⟩ := by
      rw [dispatch_flow_step env _ _ _ (by decide) (by decide) (by decide)
        (by decide) (by decide)]
      simp only [stepHandler]
      rw [if_neg (by decide : ¬(pyStrip "izoh" = BTN_SKIP))]
      rfl
    show runInputs env ⟨Step.cargoFromRegion, cargoRewrite d 0⟩ _ = _
    simp only [runInputs, List.foldl]
    rw [e1, e2, e3, e4, e5, e6, e7, e8, e9]

/-- Witness for C6 (amended) with a concrete parser and concrete pre-edit
data. -/
theorem c6_cargo_edit_amended_witness :
    dispatch
        { parseNum := fun s =>
            if s = "5" then some 5
            else if s = "10" then some 10
            else if s = "100" then some 100 else none }
        ⟨Step.cargoConfirm, cargoFullData⟩ BTN_CARGO_EDIT =
      ⟨⟨Step.cargoFromRegion, cargoFullData⟩, [],
       [.reply "Tahrirlash boshlandi. Qayerdan yuklanadi?"]⟩ ∧
    runInputs
        { parseNum := fun s =>
            if s = "5" then some 5
            else if s = "10" then some 10
            else if s = "100" then some 100 else none }
        ⟨Step.cargoFromRegion, cargoFullData⟩
        ["Andijon", "Toshkent", "mebel", "5", "10", "100", "bugun",
         "💵 Naqd", "izoh"] =
      ⟨Step.cargoConfirm, cargoRewrite cargoFullData 9⟩ :=
  c6_cargo_edit_amended _ cargoFullData rfl rfl rfl

/-- Counterexample for C6 as frozen: immediately after the edit token the
session's accumulated field values are **not** empty — the full pre-edit
data is still there. -/
theorem c6_cargo_edit_counterexample :
    (dispatch {} ⟨Step.cargoConfirm, cargoFullData⟩
        BTN_CARGO_EDIT).session =
      ⟨Step.cargoFromRegion, cargoFullData⟩ ∧
    cargoFullData ≠ ({} : SessionData) := by
  constructor
  · rw [dispatch_flow_step {} _ cargoFullData BTN_CARGO_EDIT (by decide)
      (by decide) (by decide) (by decide) (by decide)]
    rfl
  · decide

/-- `d` after the first `n` driver-profile steps store `Fura, 20, 86,
Toshkent-Samarqand` and then the price-per-distance skip. -/
def driverRewrite (d : SessionData) (n : Nat) : SessionData :=
  let s1 := { d with car_type := some "Fura" }
  let s2 := { s1 with capacity_ton := some 20 }
  let s3 := { s2 with volume_m3 := some 86 }
  let s4 := { s3 with routes := some "Toshkent-Samarqand" }
  let s5 := { s4 with price_per_km := none }
  match n with
  | 0 => d
  | 1 => s1
  | 2 => s2
  | 3 => s3
  | 4 => s4
  | _ => s5

/-- C8: in the driver-profile flow, submitting a valid vehicle type,
capacity, volume and routes, then the explicit skip token at the
price-per-distance step and again at the note step, completes the flow:
the committed driver profile has `price_per_km = none` and `note = none`,
and the user update sets `profile_completed = true`, with the session
cleared. -/
theorem c8_driver_profile_double_skip (env : Env) (d : SessionData)
    (h20 : env.parseNum "20" = some 20)
    (h86 : env.parseNum "86" = some 86) :
    runInputs env ⟨Step.driverCarType, d⟩
        ["Fura", "20", "86", "Toshkent-Samarqand"] =
      ⟨Step.driverPricePerKm, driverRewrite d 4⟩ ∧
    dispatch env ⟨Step.driverPricePerKm, driverRewrite d 4⟩ BTN_SKIP =
      ⟨⟨Step.driverNote, driverRewrite d 5⟩, [],
       [.reply "📝 Qo\x27shimcha izoh (ixtiyoriy):"]⟩ ∧
    dispatch env ⟨Step.driverNote, driverRewrite d 5⟩ BTN_SKIP =
      ⟨⟨Step.idle, {}⟩,
       [.setUserDriverSave
          ⟨some "Fura", some 20, some 86, some "Toshkent-Samarqand",
           none, none⟩ true],
       [.reply "✅ Haydovchi anketasi saqlandi."]⟩ := by
  refine ⟨?_, ?_, ?_⟩
  · have e1 : (dispatch env ⟨Step.driverCarType, driverRewrite d 0⟩
        "Fura").session = ⟨Step.driverCapacityTon, driverRewrite d 1⟩ := by
      rw [dispatch_flow_step env _ _ _ (by decide) (by decide) (by decide)
        (by decide) (by decide)]
      simp only [stepHandler]
      rw [if_neg (by decide : ¬((pyStrip "Fura").length < 2))]
      rfl
    have e2 : (dispatch env ⟨Step.driverCapacityTon, driverRewrite d 1⟩
        "20").session = ⟨Step.driverVolumeM3, driverRewrite d 2⟩ := by
      rw [dispatch_flow_step env _ _ _ (by decide) (by decide) (by decide)
        (by decide) (by decide)]
      simp only [stepHandler]
      rw [h20]
      rfl
    have e3 : (dispatch env ⟨Step.driverVolumeM3, driverRewrite d 2⟩
        "86").session = ⟨Step.driverRoutes, driverRewrite d 3⟩ := by
      rw [dispatch_flow_step env _ _ _ (by decide) (by decide) (by decide)
        (by decide) (by decide)]
      simp only [stepHandler]
      rw [h86]
      rfl
    have e4 : (dispatch env ⟨Step.driverRoutes, driverRewrite d 3⟩
        "Toshkent-Samarqand").session =
        ⟨Step.driverPricePerKm, driverRewrite d 4⟩ := by
      rw [dispatch_flow_step env _ _ _ (by decide) (by decide) (by decide)
        (by decide) (by decide)]
      simp only [stepHandler]
      rw [if_neg (by decide : ¬((pyStrip "Toshkent-Samarqand").length < 3))]
      rfl
    show runInputs env ⟨Step.driverCarType, driverRewrite d 0⟩ _ = _
    simp only [runInputs, List.foldl]
    rw [e1, e2, e3, e4]
  · rw [dispatch_flow_step env _ _ _ (by decide) (by decide) (by decide)
      (by decide) (by decide)]
    rfl
  · rw [dispatch_flow_step env _ _ _ (by decide) (by decide) (by decide)
      (by decide) (by decide)]
    rfl

/-- Witness for C8 with a concrete parser and empty starting data. -/
theorem c8_driver_profile_double_skip_witness :
    runInputs
        { parseNum := fun s =>
            if s = "20" then some 20
            else if s = "86" then some 86 else none }
        ⟨Step.driverCarType, {}⟩
        ["Fura", "20", "86", "Toshkent-Samarqand"] =
      ⟨Step.driverPricePerKm, driverRewrite {} 4⟩ ∧
    dispatch
        { parseNum := fun s =>
            if s = "20" then some 20
            else if s = "86" then some 86 else none }
        ⟨Step.driverPricePerKm, driverRewrite {} 4⟩ BTN_SKIP =
      ⟨⟨Step.driverNote, driverRewrite {} 5⟩, [],
       [.reply "📝 Qo\x27shimcha izoh (ixtiyoriy):"]⟩ ∧
    dispatch
        { parseNum := fun s =>
            if s = "20" then some 20
            else if s = "86" then some 86 else none }
        ⟨Step.driverNote, driverRewrite {} 5⟩ BTN_SKIP =
      ⟨⟨Step.idle, {}⟩,
       [.setUserDriverSave
          ⟨some "Fura", some 20, some 86, some "Toshkent-Samarqand",
           none, none⟩ true],
       [.reply "✅ Haydovchi anketasi saqlandi."]⟩ :=
  c8_driver_profile_double_skip _ {} rfl rfl

/-- The flow states whose handlers re-check admin rights
(`require_admin`) on entry. -/
def adminGuardedStates : List Step :=
  [.broadcastContent, .proAdd, .proRemove, .chCatalogChat, .chRegionChat,
   .chRequiredAdd, .chRequiredRemove]

/-- The `StateFilter(None)` admin menu buttons guarded by
`require_admin`. -/
def adminMenuButtons : List String :=
  [BTN_ADMIN_PANEL, BTN_ADMIN_STATS, BTN_ADMIN_USERS, BTN_BROADCAST,
   BTN_ADMIN_PRO, BTN_PRO_ADD, BTN_PRO_REMOVE, BTN_ADMIN_CHANNELS,
   BTN_CH_SET_CATALOG, BTN_CH_SET_REGION, BTN_CH_LIST, BTN_REQ_ADD,
   BTN_REQ_REMOVE, BTN_REQ_LIST, BTN_ADMIN_GUIDE, BTN_BACK_ADMIN]

/-- C9 (amended): every admin-guarded operation invoked by a non-admin is
short-circuited with the fixed denial message and performs no
persistent-store write — but the user's **session** is not left intact:
the admin flow-state handlers clear it as part of the short-circuit, and
the menu-button path has already cleared it before the denial. -/
theorem c9_admin_denial_amended (env : Env) (hadmin : env.isAdmin = false) :
    (∀ step ∈ adminGuardedStates, ∀ (d : SessionData) (text : String),
      canonicalize_user_text (canonicalize_user_text text) ∉
        MENU_INTERRUPT_BUTTONS →
      canonicalize_user_text text ≠ BTN_CANCEL →
      dispatch env ⟨step, d⟩ text =
        ⟨⟨Step.idle, {}⟩, [], [.reply denialMsg]⟩) ∧
    (∀ btn ∈ adminMenuButtons, ∀ d : SessionData,
      dispatch env ⟨Step.idle, d⟩ btn =
        ⟨⟨Step.idle, {}⟩, [], [.reply denialMsg]⟩) := by
  obtain ⟨u, uf, ia, sub, pn, gc, sc, su, cio, us, cfgv, nw, cw, nid, man⟩ :=
    env
  change ia = false at hadmin
  subst hadmin
  constructor
  · intro step hstep d text hni hnc
    fin_cases hstep <;>
    · simp [dispatch, hnc, hni, stepHandler, admin_broadcast_content,
        admin_pro_add_state, admin_pro_remove_state, admin_set_catalog_chat,
        admin_set_region_chat, admin_required_add_state,
        admin_required_remove_state]
  · intro btn hbtn d
    fin_cases hbtn <;> rfl

/-- Witness for C9 (amended): a non-admin mid broadcast-content flow. -/
theorem c9_admin_denial_amended_witness :
    dispatch {} ⟨Step.broadcastContent, { audience := some "drivers" }⟩
        "salom" =
      ⟨⟨Step.idle, {}⟩, [], [.reply denialMsg]⟩ :=
  (c9_admin_denial_amended {} rfl).1 Step.broadcastContent (by decide)
    { audience := some "drivers" } "salom" (by decide) (by decide)

/-- Counterexample for C9 as frozen: the denied broadcast-content
invocation **does** mutate the user's session state — it clears it. -/
theorem c9_admin_denial_counterexample :
    (dispatch {} ⟨Step.broadcastContent, { audience := some "drivers" }⟩
        "salom").session = ⟨Step.idle, {}⟩ ∧
    (⟨Step.idle, {}⟩ : Session) ≠
      ⟨Step.broadcastContent, { audience := some "drivers" }⟩ :=
  ⟨rfl, by decide⟩
